import Mathlib

/-!
Shallow embedding of `baseapp/runtime/module.go` from the cosmos-sdk runtime
wiring package.  External collaborators (tendermint logger, tm-db handles,
the snapshot store, pruning-flag parsing, `LoadLatestVersion`) are modelled
as opaque handles and as environment records carrying the outcome of each
external call.  Go errors (`fmt.Errorf` values) are modelled as `GoError`
carrying the formatted message; a Go `panic` inside `Create` is modelled as
an error outcome that returns no application handle and leaves the creator
untouched (the assignment `a.app = ...` happens only after every failure
point in the source).
-/

set_option autoImplicit false

namespace CosmosRuntime

/-- A Go `error` value, carrying the message produced by `fmt.Errorf`
or by an external collaborator. -/
structure GoError where
  msg : String
  deriving DecidableEq, Repr

/-- Go formats `%q` on a string by wrapping it in double quotes. -/
def goQuote (s : String) : String := "\"" ++ s ++ "\""

/-- Message of the duplicate-module error in `RegisterModules`. -/
def duplicateModuleMsg (name : String) : String :=
  "module named " ++ goQuote name ++ " already exists"

/-- Message of the not-created error in `Finish`. -/
def notCreatedMsg : String :=
  "app not created yet, can't finish"

/-- Message of the unknown-begin-blocker error in `Finish`. -/
def unknownBlockerMsg (name : String) : String :=
  "can't find module named " ++ goQuote name ++ " registered as a begin blocker"

/-- Handle to a `codectypes.InterfaceRegistry`; the `id` is the allocation
identity, so equality of handles is reference equality. -/
structure InterfaceRegistry where
  id : Nat
  deriving DecidableEq, Repr

/-- Handle to a `codec.ProtoCodec`; records the interface registry it was
constructed over (`codec.NewProtoCodec(interfaceRegistry)`). -/
structure ProtoCodec where
  id : Nat
  interfaceRegistry : InterfaceRegistry
  deriving DecidableEq, Repr

/-- Handle to a `codec.LegacyAmino` (`codec.NewLegacyAmino()`). -/
structure LegacyAmino where
  id : Nat
  deriving DecidableEq, Repr

/-- A `storetypes.StoreKey`: one of the three concrete store-key kinds,
each carrying the name it was constructed with. -/
inductive StoreKey where
  | kv (name : String)
  | transient (name : String)
  | memory (name : String)
  deriving DecidableEq, Repr

/-- The `appBuilder` struct: accumulated store keys plus the three codec
handles created at builder instantiation. -/
structure AppBuilder where
  storeKeys : List StoreKey
  interfaceRegistry : InterfaceRegistry
  cdc : ProtoCodec
  amino : LegacyAmino
  deriving DecidableEq, Repr

/-- `(a *appBuilder) registerStoreKey`: appends the key to `a.storeKeys`. -/
def AppBuilder.registerStoreKey (a : AppBuilder) (key : StoreKey) : AppBuilder :=
  { a with storeKeys := a.storeKeys ++ [key] }

/-- The `outputs` struct of `provideBuilder`: the three codec handles
exported to all consumers, plus the builder itself. -/
structure Outputs where
  interfaceRegistry : InterfaceRegistry
  cdc : ProtoCodec
  amino : LegacyAmino
  builder : AppBuilder
  deriving Repr

/-- `codectypes.NewInterfaceRegistry()`: allocates a fresh registry. -/
def newInterfaceRegistry (fresh : Nat) : InterfaceRegistry × Nat :=
  (⟨fresh⟩, fresh + 1)

/-- `codec.NewProtoCodec(reg)`: allocates a fresh codec over `reg`. -/
def newProtoCodec (reg : InterfaceRegistry) (fresh : Nat) : ProtoCodec × Nat :=
  (⟨fresh, reg⟩, fresh + 1)

/-- `codec.NewLegacyAmino()`: allocates a fresh legacy amino codec. -/
def newLegacyAmino (fresh : Nat) : LegacyAmino × Nat :=
  (⟨fresh⟩, fresh + 1)

/-- `provideBuilder`: creates the interface registry, the proto codec over
that registry, and the legacy amino codec, stores all three in a fresh
`appBuilder` with `storeKeys = nil`, and exports the same handles.
`fresh` threads the allocator so each handle is a distinct fresh object. -/
def provideBuilder (fresh : Nat) : Outputs × Nat :=
  let (interfaceRegistry, f1) := newInterfaceRegistry fresh
  let (cdc, f2) := newProtoCodec interfaceRegistry f1
  let (amino, f3) := newLegacyAmino f2
  let builder : AppBuilder :=
    { storeKeys := []
      interfaceRegistry := interfaceRegistry
      cdc := cdc
      amino := amino }
  ({ interfaceRegistry := interfaceRegistry
     cdc := cdc
     amino := amino
     builder := builder }, f3)

/-- A `container.ModuleKey`: exposes `Name()`. -/
structure ModuleKey where
  name : String
  deriving DecidableEq, Repr

/-- `provideKVStoreKey`: makes a KV store key named after the module key
and registers it into the builder. -/
def provideKVStoreKey (key : ModuleKey) (builder : AppBuilder) :
    StoreKey × AppBuilder :=
  let storeKey := StoreKey.kv key.name
  (storeKey, builder.registerStoreKey storeKey)

/-- `provideTransientStoreKey`: transient analogue of `provideKVStoreKey`. -/
def provideTransientStoreKey (key : ModuleKey) (builder : AppBuilder) :
    StoreKey × AppBuilder :=
  let storeKey := StoreKey.transient key.name
  (storeKey, builder.registerStoreKey storeKey)

/-- `provideMemoryStoreKey`: memory analogue of `provideKVStoreKey`. -/
def provideMemoryStoreKey (key : ModuleKey) (builder : AppBuilder) :
    StoreKey × AppBuilder :=
  let storeKey := StoreKey.memory key.name
  (storeKey, builder.registerStoreKey storeKey)

/-- One request made to a scoped store-key factory: which factory kind,
and the module identifier it is scoped to. -/
inductive StoreKeyRequest where
  | kv (moduleName : String)
  | transient (moduleName : String)
  | memory (moduleName : String)
  deriving DecidableEq, Repr

/-- Dispatch one factory request against the builder. -/
def runStoreKeyRequest (builder : AppBuilder) : StoreKeyRequest → StoreKey × AppBuilder
  | .kv n => provideKVStoreKey ⟨n⟩ builder
  | .transient n => provideTransientStoreKey ⟨n⟩ builder
  | .memory n => provideMemoryStoreKey ⟨n⟩ builder

/-- Run a sequence of factory requests left to right, threading the builder. -/
def runStoreKeyRequests (builder : AppBuilder) : List StoreKeyRequest → AppBuilder
  | [] => builder
  | r :: rs => runStoreKeyRequests (runStoreKeyRequest builder r).2 rs

/-- A `module.AppModule` as consumed here: only `Name()` is used. -/
structure AppModule where
  name : String
  deriving DecidableEq, Repr

/-- `module.AppModuleWiringWrapper{AppModule: m}`. -/
structure AppModuleWiringWrapper where
  appModule : AppModule
  deriving DecidableEq, Repr

/-- The Go `map[string]module.AppModuleWiringWrapper`, as an association
list with unique keys (insertions happen only after a lookup miss). -/
abbrev ModuleRegistry := List (String × AppModuleWiringWrapper)

/-- Map lookup `a.modules[name]`. -/
def lookupModule (registry : ModuleRegistry) (name : String) :
    Option AppModuleWiringWrapper :=
  match registry with
  | [] => none
  | (k, v) :: rest => if k = name then some v else lookupModule rest name

/-- The `runtimev1.Module` configuration record: the fields this file
reads (`AppName`, `BeginBlockers`). -/
structure ModuleConfig where
  appName : String
  beginBlockers : List String
  deriving DecidableEq, Repr

/-- Opaque handle for the tendermint logger. -/
structure Logger where
  id : Nat
  deriving DecidableEq, Repr

/-- Opaque handle for the application database (`dbm.DB`). -/
structure DB where
  id : Nat
  deriving DecidableEq, Repr

/-- Opaque handle for the trace writer (`io.Writer`, possibly nil). -/
structure TraceWriter where
  id : Nat
  deriving DecidableEq, Repr

/-- Opaque handle for the snapshot metadata database. -/
structure SnapshotDB where
  id : Nat
  deriving DecidableEq, Repr

/-- Opaque handle for the snapshot store. -/
structure SnapshotStore where
  id : Nat
  deriving DecidableEq, Repr

/-- Parsed pruning options (`storetypes.PruningOptions`). -/
structure PruningOptions where
  strategy : String
  deriving DecidableEq, Repr

/-- `snapshottypes.NewSnapshotOptions(interval, keepRecent)`. -/
structure SnapshotOptions where
  interval : Nat
  keepRecent : Nat
  deriving DecidableEq, Repr

/-- The slice of a `baseapp.BaseApp` configured by this file: the
constructor arguments plus every field touched by the option setters and
the post-construction setter calls in `Create`. -/
structure BaseApp where
  name : String
  logger : Logger
  db : DB
  pruning : Option PruningOptions
  minGasPrices : String
  haltHeight : Nat
  haltTime : Nat
  minRetainBlocks : Nat
  interBlockCache : Bool
  trace : Bool
  indexEvents : List String
  snapshotStore : Option SnapshotStore
  snapshotOptions : Option SnapshotOptions
  commitMultiStoreTracer : Option TraceWriter
  version : String
  interfaceRegistry : Option InterfaceRegistry
  deriving DecidableEq, Repr

/-- `baseapp.SetPruning(opts)`. -/
def setPruning (opts : PruningOptions) (b : BaseApp) : BaseApp :=
  { b with pruning := some opts }

/-- `baseapp.SetMinGasPrices(gasPrices)`. -/
def setMinGasPrices (gasPrices : String) (b : BaseApp) : BaseApp :=
  { b with minGasPrices := gasPrices }

/-- `baseapp.SetHaltHeight(height)`. -/
def setHaltHeight (height : Nat) (b : BaseApp) : BaseApp :=
  { b with haltHeight := height }

/-- `baseapp.SetHaltTime(time)`. -/
def setHaltTime (time : Nat) (b : BaseApp) : BaseApp :=
  { b with haltTime := time }

/-- `baseapp.SetMinRetainBlocks(blocks)`. -/
def setMinRetainBlocks (blocks : Nat) (b : BaseApp) : BaseApp :=
  { b with minRetainBlocks := blocks }

/-- `baseapp.SetInterBlockCache(cache)`: `cache` records whether the
commit-KV-store cache manager was created. -/
def setInterBlockCache (cache : Bool) (b : BaseApp) : BaseApp :=
  { b with interBlockCache := cache }

/-- `baseapp.SetTrace(trace)`. -/
def setTrace (trace : Bool) (b : BaseApp) : BaseApp :=
  { b with trace := trace }

/-- `baseapp.SetIndexEvents(events)`. -/
def setIndexEvents (events : List String) (b : BaseApp) : BaseApp :=
  { b with indexEvents := events }

/-- `baseapp.SetSnapshot(store, opts)`. -/
def setSnapshot (store : SnapshotStore) (opts : SnapshotOptions) (b : BaseApp) : BaseApp :=
  { b with snapshotStore := some store, snapshotOptions := some opts }

/-- The external build-time `version.Version` string. -/
def versionString : String := ""

/-- `baseapp.NewBaseApp(name, logger, db, options...)`: builds the base
record then applies each functional option in order. -/
def newBaseApp (name : String) (logger : Logger) (db : DB)
    (options : List (BaseApp → BaseApp)) : BaseApp :=
  options.foldl (fun b f => f b)
    { name := name
      logger := logger
      db := db
      pruning := none
      minGasPrices := ""
      haltHeight := 0
      haltTime := 0
      minRetainBlocks := 0
      interBlockCache := false
      trace := false
      indexEvents := []
      snapshotStore := none
      snapshotOptions := none
      commitMultiStoreTracer := none
      version := ""
      interfaceRegistry := none }

/-- The `App` struct (embeds the configured `BaseApp`). -/
structure App where
  baseApp : BaseApp
  deriving DecidableEq, Repr

/-- The `AppCreator` struct. -/
structure AppCreator where
  builder : AppBuilder
  modules : ModuleRegistry
  app : Option App
  config : ModuleConfig
  deriving DecidableEq, Repr

/-- `provideApp(config, builder, modules)`. -/
def provideApp (config : ModuleConfig) (builder : AppBuilder)
    (modules : ModuleRegistry) : AppCreator :=
  { config := config, builder := builder, modules := modules, app := none }

/-- `(a *AppCreator) RegisterModules(modules...)`: for each module in
order, error out on a name already present, otherwise insert.  The
receiver is mutated in place, so the creator state at the moment of an
error (with all earlier insertions retained) is returned alongside it. -/
def AppCreator.registerModules :
    AppCreator → List AppModule → AppCreator × Option GoError
  | a, [] => (a, none)
  | a, m :: rest =>
    if (lookupModule a.modules m.name).isSome then
      (a, some ⟨duplicateModuleMsg m.name⟩)
    else
      AppCreator.registerModules
        { a with modules := a.modules ++ [(m.name, ⟨m⟩)] } rest

/-- Environment for `Create`: the values read from the options source
(already coerced, since absent keys coerce to zero values) and the
outcomes of the fallible external calls (pruning-flag parsing, snapshot
metadata database open, snapshot store open). -/
structure CreateEnv where
  interBlockCacheFlag : Bool
  pruningOptsResult : Except GoError PruningOptions
  snapshotDBResult : Except GoError SnapshotDB
  snapshotStoreResult : Except GoError SnapshotStore
  stateSyncSnapshotInterval : Nat
  stateSyncSnapshotKeepRecent : Nat
  minGasPrices : String
  haltHeight : Nat
  haltTime : Nat
  minRetainBlocks : Nat
  traceFlag : Bool
  indexEvents : List String
  deriving Repr

/-- `(a *AppCreator) Create(logger, db, traceStore, appOpts, baseAppOptions...)`.
A Go `panic(err)` at the pruning parse or either snapshot open is modelled
as `.error err` with the creator returned unchanged: the assignment to
`a.app` in the source occurs only after all three failure points, so on
panic no field of the creator has been written. -/
def AppCreator.create (a : AppCreator) (logger : Logger) (db : DB)
    (traceStore : Option TraceWriter) (env : CreateEnv)
    (baseAppOptions : List (BaseApp → BaseApp)) :
    AppCreator × Except GoError App :=
  let cache := env.interBlockCacheFlag
  match env.pruningOptsResult with
  | .error err => (a, .error err)
  | .ok pruningOpts =>
    match env.snapshotDBResult with
    | .error err => (a, .error err)
    | .ok _snapshotDB =>
      match env.snapshotStoreResult with
      | .error err => (a, .error err)
      | .ok snapshotStore =>
        let snapshotOptions : SnapshotOptions :=
          ⟨env.stateSyncSnapshotInterval, env.stateSyncSnapshotKeepRecent⟩
        let allOptions := baseAppOptions ++
          [setPruning pruningOpts,
           setMinGasPrices env.minGasPrices,
           setHaltHeight env.haltHeight,
           setHaltTime env.haltTime,
           setMinRetainBlocks env.minRetainBlocks,
           setInterBlockCache cache,
           setTrace env.traceFlag,
           setIndexEvents env.indexEvents,
           setSnapshot snapshotStore snapshotOptions]
        let bApp := newBaseApp a.config.appName logger db allOptions
        let bApp := { bApp with
          commitMultiStoreTracer := traceStore
          version := versionString
          interfaceRegistry := some a.builder.interfaceRegistry }
        let app : App := { baseApp := bApp }
        ({ a with app := some app }, .ok app)

/-- The begin-blocker loop of `Finish`: look up each declared blocker in
registration order; report the first name with no registered module. -/
def firstMissingBlocker (modules : ModuleRegistry) : List String → Option String
  | [] => none
  | blocker :: rest =>
    if (lookupModule modules blocker).isSome then
      firstMissingBlocker modules rest
    else
      some blocker

/-- `(a *AppCreator) Finish(loadLatest)`.  `loadLatestVersionRes` is the
outcome of the external call `a.app.LoadLatestVersion()` (`none` on
success).  `Finish` writes no field of the creator, so the creator is
returned unchanged in every branch. -/
def AppCreator.finish (a : AppCreator) (loadLatest : Bool)
    (loadLatestVersionRes : Option GoError) : AppCreator × Option GoError :=
  match a.app with
  | none => (a, some ⟨notCreatedMsg⟩)
  | some _ =>
    match firstMissingBlocker a.modules a.config.beginBlockers with
    | some blocker => (a, some ⟨unknownBlockerMsg blocker⟩)
    | none =>
      if loadLatest then
        match loadLatestVersionRes with
        | some err => (a, some err)
        | none => (a, none)
      else
        (a, none)

/-- The store key a factory request produces, read off the factories:
it depends only on the request, never on the builder state. -/
def requestStoreKey : StoreKeyRequest → StoreKey
  | .kv n => .kv n
  | .transient n => .transient n
  | .memory n => .memory n

/-! Concrete sample values used by witnesses and counterexamples. -/

/-- A configuration with no begin blockers. -/
def sampleConfig : ModuleConfig := { appName := "simapp", beginBlockers := [] }

/-- A configuration declaring begin blockers `auth` then `bank`. -/
def sampleConfigAuthBank : ModuleConfig :=
  { appName := "simapp", beginBlockers := ["auth", "bank"] }

/-- A configuration declaring the begin blocker `staking`. -/
def sampleConfigStaking : ModuleConfig :=
  { appName := "simapp", beginBlockers := ["staking"] }

/-- Sample logger handle. -/
def sampleLogger : Logger := ⟨0⟩

/-- Sample application database handle. -/
def sampleDB : DB := ⟨0⟩

/-- Sample module named `auth`. -/
def authModule : AppModule := ⟨"auth"⟩

/-- Sample module named `bank`. -/
def bankModule : AppModule := ⟨"bank"⟩

/-- A creator fresh out of `provideApp`, with no modules registered. -/
def sampleCreator0 : AppCreator :=
  provideApp sampleConfig ((provideBuilder 0).1).builder []

/-- A creator holding one registered module, `bank`. -/
def creatorWithBank : AppCreator :=
  (sampleCreator0.registerModules [bankModule]).1

/-- A `Create` environment in which every external step succeeds. -/
def okEnv : CreateEnv :=
  { interBlockCacheFlag := false
    pruningOptsResult := .ok ⟨"default"⟩
    snapshotDBResult := .ok ⟨0⟩
    snapshotStoreResult := .ok ⟨0⟩
    stateSyncSnapshotInterval := 0
    stateSyncSnapshotKeepRecent := 0
    minGasPrices := "0stake"
    haltHeight := 0
    haltTime := 0
    minRetainBlocks := 0
    traceFlag := false
    indexEvents := [] }

/-- Like `okEnv` but with a different halt height, so the engine it
produces is observably different. -/
def okEnvHalt : CreateEnv := { okEnv with haltHeight := 10 }

/-- A `Create` environment whose pruning-option parse fails. -/
def badPruningEnv : CreateEnv :=
  { okEnv with pruningOptsResult := .error ⟨"invalid pruning option"⟩ }

/-- A creator on which `Create` has succeeded (no begin blockers). -/
def createdCreator : AppCreator :=
  (sampleCreator0.create sampleLogger sampleDB none okEnv []).1

/-- A creator configured with begin blocker `staking` and an engine
handle, but no registered module of that name. -/
def creatorMissingBlocker : AppCreator :=
  ((provideApp sampleConfigStaking ((provideBuilder 0).1).builder []).create
    sampleLogger sampleDB none okEnv []).1

/-- A creator with modules `auth` and `bank` registered, begin blockers
`auth, bank`, and a constructed engine handle. -/
def creatorAuthBank : AppCreator :=
  (((provideApp sampleConfigAuthBank ((provideBuilder 0).1).builder
      []).registerModules [authModule, bankModule]).1.create
    sampleLogger sampleDB none okEnv []).1

/-! Helper lemmas. -/

/-- A hit in the front list survives appending. -/
theorem lookupModule_append_some {registry : ModuleRegistry} {name : String}
    {w : AppModuleWiringWrapper} (tail : ModuleRegistry)
    (h : lookupModule registry name = some w) :
    lookupModule (registry ++ tail) name = some w := by
  induction registry with
  | nil => simp [lookupModule] at h
  | cons e rest ih =>
    rw [lookupModule] at h
    rw [List.cons_append, lookupModule]
    by_cases hk : e.1 = name
    · simpa [hk] using h
    · rw [if_neg hk] at h ⊢
      exact ih h

/-- A miss in the front list defers lookup to the appended tail. -/
theorem lookupModule_append_none {registry : ModuleRegistry} {name : String}
    (tail : ModuleRegistry) (h : lookupModule registry name = none) :
    lookupModule (registry ++ tail) name = lookupModule tail name := by
  induction registry with
  | nil => rfl
  | cons e rest ih =>
    rw [lookupModule] at h
    rw [List.cons_append, lookupModule]
    by_cases hk : e.1 = name
    · simp [hk] at h
    · rw [if_neg hk] at h ⊢
      exact ih h

/-- If every declared blocker resolves, the blocker loop reports nothing. -/
theorem firstMissingBlocker_eq_none {modules : ModuleRegistry}
    {blockers : List String}
    (h : ∀ b ∈ blockers, (lookupModule modules b).isSome = true) :
    firstMissingBlocker modules blockers = none := by
  induction blockers with
  | nil => rfl
  | cons b rest ih =>
    rw [firstMissingBlocker, if_pos (h b (List.mem_cons_self b rest))]
    exact ih fun x hx => h x (List.mem_cons_of_mem b hx)

/-- The blocker reported by the loop is a declared blocker with no
registered module. -/
theorem firstMissingBlocker_spec {modules : ModuleRegistry}
    {blockers : List String} {b : String}
    (h : firstMissingBlocker modules blockers = some b) :
    b ∈ blockers ∧ lookupModule modules b = none := by
  induction blockers with
  | nil => simp [firstMissingBlocker] at h
  | cons x rest ih =>
    rw [firstMissingBlocker] at h
    by_cases hx : (lookupModule modules x).isSome = true
    · rw [if_pos hx] at h
      obtain ⟨hmem, hnone⟩ := ih h
      exact ⟨List.mem_cons_of_mem x hmem, hnone⟩
    · rw [if_neg hx] at h
      obtain rfl : x = b := by injection h
      refine ⟨List.mem_cons_self x rest, ?_⟩
      cases hl : lookupModule modules x
      · rfl
      · exact absurd (by simp [hl]) hx

/-- If some declared blocker has no registered module, the loop reports one. -/
theorem firstMissingBlocker_isSome {modules : ModuleRegistry}
    {blockers : List String} {b : String} (hmem : b ∈ blockers)
    (hnone : lookupModule modules b = none) :
    (firstMissingBlocker modules blockers).isSome = true := by
  induction blockers with
  | nil => cases hmem
  | cons x rest ih =>
    rw [firstMissingBlocker]
    by_cases hx : (lookupModule modules x).isSome = true
    · rw [if_pos hx]
      rcases List.mem_cons.mp hmem with rfl | hmem2
      · simp [hnone] at hx
      · exact ih hmem2
    · rw [if_neg hx]
      rfl

/-- `Finish` writes no field of the creator, in every branch. -/
theorem finish_fst (a : AppCreator) (loadLatest : Bool)
    (loadLatestVersionRes : Option GoError) :
    (a.finish loadLatest loadLatestVersionRes).1 = a := by
  unfold AppCreator.finish
  split
  · rfl
  · split
    · rfl
    · split
      · split <;> rfl
      · rfl

/-- Each factory call returns the request-determined key and appends
exactly that key to the builder. -/
theorem runStoreKeyRequest_eq (builder : AppBuilder) (r : StoreKeyRequest) :
    runStoreKeyRequest builder r
      = (requestStoreKey r, builder.registerStoreKey (requestStoreKey r)) := by
  cases r <;> rfl

/-- The store-key list after a request sequence is the old list with the
request-determined keys appended in order. -/
theorem runStoreKeyRequests_storeKeys (builder : AppBuilder)
    (rs : List StoreKeyRequest) :
    (runStoreKeyRequests builder rs).storeKeys
      = builder.storeKeys ++ rs.map requestStoreKey := by
  induction rs generalizing builder with
  | nil => simp [runStoreKeyRequests]
  | cons r rest ih =>
    rw [runStoreKeyRequests, ih, runStoreKeyRequest_eq]
    simp [AppBuilder.registerStoreKey]

/-- Factory calls leave the builder's codec handles untouched. -/
theorem runStoreKeyRequests_fields (builder : AppBuilder)
    (rs : List StoreKeyRequest) :
    (runStoreKeyRequests builder rs).interfaceRegistry = builder.interfaceRegistry ∧
    (runStoreKeyRequests builder rs).cdc = builder.cdc ∧
    (runStoreKeyRequests builder rs).amino = builder.amino := by
  induction rs generalizing builder with
  | nil => exact ⟨rfl, rfl, rfl⟩
  | cons r rest ih =>
    rw [runStoreKeyRequests]
    have hfields : ((runStoreKeyRequest builder r).2).interfaceRegistry
          = builder.interfaceRegistry ∧
        ((runStoreKeyRequest builder r).2).cdc = builder.cdc ∧
        ((runStoreKeyRequest builder r).2).amino = builder.amino := by
      cases r <;> exact ⟨rfl, rfl, rfl⟩
    obtain ⟨f1, f2, f3⟩ := hfields
    obtain ⟨h1, h2, h3⟩ := ih ((runStoreKeyRequest builder r).2)
    exact ⟨h1.trans f1, h2.trans f2, h3.trans f3⟩

/-! Claim theorems. -/

/-- C3: `Finish` called on a creator whose engine handle is still absent
(before `Create`) always fails with the not-created error and returns the
creator — and with it the module registry — unchanged. -/
theorem finish_not_created (a : AppCreator) (loadLatest : Bool)
    (loadRes : Option GoError) (h : a.app = none) :
    a.finish loadLatest loadRes = (a, some ⟨notCreatedMsg⟩) := by
  unfold AppCreator.finish
  rw [h]

/-- Witness for C3 at a concrete fresh creator. -/
theorem finish_not_created_concrete :
    sampleCreator0.finish true none = (sampleCreator0, some ⟨notCreatedMsg⟩) :=
  finish_not_created sampleCreator0 true none rfl

/-- C1: when the configuration's begin-blocker list holds a name with no
entry in the module registry, `Finish` on a creator with a constructed
engine returns the unknown-module error naming a missing declared blocker,
and the creator (engine handle, registry, builder) is unchanged. -/
theorem finish_unknown_blocker (a : AppCreator) (loadLatest : Bool)
    (loadRes : Option GoError) (happ : a.app.isSome = true)
    (hmiss : ∃ b ∈ a.config.beginBlockers, lookupModule a.modules b = none) :
    ∃ b ∈ a.config.beginBlockers, lookupModule a.modules b = none ∧
      a.finish loadLatest loadRes = (a, some ⟨unknownBlockerMsg b⟩) := by
  obtain ⟨b0, hmem0, hnone0⟩ := hmiss
  have hsome := firstMissingBlocker_isSome hmem0 hnone0
  obtain ⟨b, hb⟩ := Option.isSome_iff_exists.mp hsome
  obtain ⟨hmem, hnone⟩ := firstMissingBlocker_spec hb
  refine ⟨b, hmem, hnone, ?_⟩
  obtain ⟨app, happ2⟩ := Option.isSome_iff_exists.mp happ
  unfold AppCreator.finish
  rw [happ2, hb]

/-- Witness for C1: blocker `staking` is declared but unregistered. -/
theorem finish_unknown_blocker_concrete :
    ∃ b ∈ creatorMissingBlocker.config.beginBlockers,
      lookupModule creatorMissingBlocker.modules b = none ∧
      creatorMissingBlocker.finish false none =
        (creatorMissingBlocker, some ⟨unknownBlockerMsg b⟩) :=
  finish_unknown_blocker creatorMissingBlocker false none (by rfl)
    ⟨"staking", by decide, by rfl⟩

/-- C8: with the engine constructed and every declared blocker resolvable,
a failing load-latest-state call makes `Finish(true)` return exactly the
error value produced by the engine — not wrapped — and the creator is
returned unchanged, so `Finish` can be retried. -/
theorem finish_load_error_propagates (a : AppCreator) (e : GoError)
    (happ : a.app.isSome = true)
    (hblockers : ∀ b ∈ a.config.beginBlockers,
      (lookupModule a.modules b).isSome = true) :
    a.finish true (some e) = (a, some e) := by
  obtain ⟨app, happ2⟩ := Option.isSome_iff_exists.mp happ
  unfold AppCreator.finish
  rw [happ2, firstMissingBlocker_eq_none hblockers]
  rfl

/-- Witness for C8 at a creator with modules `auth`, `bank` registered and
both declared as begin blockers. -/
theorem finish_load_error_propagates_concrete :
    creatorAuthBank.finish true (some ⟨"kv store load error"⟩) =
      (creatorAuthBank, some ⟨"kv store load error"⟩) :=
  finish_load_error_propagates creatorAuthBank ⟨"kv store load error"⟩
    (by rfl) (by decide)

/-- C4 counterexample: on a concrete creator with a constructed engine,
`Finish` completes successfully, and calling `Finish` again on the creator
it returns completes successfully a second time instead of erroring. -/
theorem finish_second_call_succeeds :
    (createdCreator.finish false none).2 = none ∧
    ((createdCreator.finish false none).1.finish false none).2 = none :=
  ⟨rfl, rfl⟩

/-- C4 (amended): the creator records no Finished state, so `Finish` is not
terminal: whenever `Finish` completes successfully, calling it again on the
returned creator with the same load outcome completes successfully again
(only `Finish` before `Create` is an error). -/
theorem finish_repeatable (a : AppCreator) (loadLatest : Bool)
    (loadRes : Option GoError)
    (h : (a.finish loadLatest loadRes).2 = none) :
    ((a.finish loadLatest loadRes).1.finish loadLatest loadRes).2 = none := by
  rw [finish_fst]
  exact h

/-- Witness for the amended C4 at a concrete fully-wired creator. -/
theorem finish_repeatable_concrete :
    ((creatorAuthBank.finish false none).1.finish false none).2 = none :=
  finish_repeatable creatorAuthBank false none rfl

/-- C6: the builder's store-key list grows by exactly one entry per scoped
factory call — its length after any request sequence is the starting length
plus the number of calls, and in particular two calls with the same
identifier append two entries (one per call, never deduplicated). -/
theorem storeKeys_length_eq_requests (builder : AppBuilder)
    (rs : List StoreKeyRequest) (r : StoreKeyRequest) :
    ((runStoreKeyRequests builder rs).storeKeys.length
        = builder.storeKeys.length + rs.length) ∧
    (runStoreKeyRequests builder [r, r]).storeKeys
        = builder.storeKeys ++ [requestStoreKey r, requestStoreKey r] := by
  constructor
  · rw [runStoreKeyRequests_storeKeys]
    simp
  · rw [runStoreKeyRequests_storeKeys]
    rfl

/-- C7: the interface registry, primary codec and legacy amino exported by
`provideBuilder` are the very handles stored in the builder (one shared
instance of each per assembly), the codec is constructed over that same
single registry, and no sequence of scoped factory calls replaces any of
them. -/
theorem codec_handles_shared (fresh : Nat) (rs : List StoreKeyRequest) :
    ((provideBuilder fresh).1.builder.interfaceRegistry
        = (provideBuilder fresh).1.interfaceRegistry) ∧
    ((provideBuilder fresh).1.builder.cdc = (provideBuilder fresh).1.cdc) ∧
    ((provideBuilder fresh).1.builder.amino = (provideBuilder fresh).1.amino) ∧
    ((provideBuilder fresh).1.cdc.interfaceRegistry
        = (provideBuilder fresh).1.interfaceRegistry) ∧
    ((runStoreKeyRequests (provideBuilder fresh).1.builder rs).interfaceRegistry
        = (provideBuilder fresh).1.interfaceRegistry) ∧
    ((runStoreKeyRequests (provideBuilder fresh).1.builder rs).cdc
        = (provideBuilder fresh).1.cdc) ∧
    ((runStoreKeyRequests (provideBuilder fresh).1.builder rs).amino
        = (provideBuilder fresh).1.amino) := by
  obtain ⟨h1, h2, h3⟩ :=
    runStoreKeyRequests_fields (provideBuilder fresh).1.builder rs
  exact ⟨rfl, rfl, rfl, rfl, h1.trans rfl, h2.trans rfl, h3.trans rfl⟩

/-- C2: registering a module whose name is already present in the registry
always returns the duplicate-module error, wherever the duplicate sits in
the argument list, and afterwards the first-registered module of that name
is still the one the registry yields (never overwritten). -/
theorem registerModules_duplicate_rejected (a : AppCreator)
    (ms : List AppModule) (m : AppModule) (w : AppModuleWiringWrapper)
    (hw : lookupModule a.modules m.name = some w) (hm : m ∈ ms) :
    (∃ n, (a.registerModules ms).2 = some ⟨duplicateModuleMsg n⟩) ∧
    lookupModule (a.registerModules ms).1.modules m.name = some w := by
  induction ms generalizing a with
  | nil => cases hm
  | cons x rest ih =>
    rw [AppCreator.registerModules]
    by_cases hx : (lookupModule a.modules x.name).isSome = true
    · rw [if_pos hx]
      exact ⟨⟨x.name, rfl⟩, hw⟩
    · rw [if_neg hx]
      have hm2 : m ∈ rest := by
        rcases List.mem_cons.mp hm with rfl | h2
        · exact absurd (by simp [hw]) hx
        · exact h2
      exact ih _ (lookupModule_append_some _ hw) hm2

/-- Witness for C2: re-registering `bank` after it is already present. -/
theorem registerModules_duplicate_rejected_concrete :
    (∃ n, (creatorWithBank.registerModules [⟨"bank"⟩]).2
        = some ⟨duplicateModuleMsg n⟩) ∧
    lookupModule (creatorWithBank.registerModules [⟨"bank"⟩]).1.modules "bank"
        = some ⟨bankModule⟩ :=
  registerModules_duplicate_rejected creatorWithBank [⟨"bank"⟩] ⟨"bank"⟩
    ⟨bankModule⟩ (by rfl) (by decide)

/-- C10: `RegisterModules` is not atomic on error: when the arguments are a
block of fresh, pairwise-distinctly-named modules followed by the first
duplicate, the call errors on the duplicate, yet every earlier argument has
been inserted and remains in the registry of the returned creator. -/
theorem registerModules_partial_insertion (a : AppCreator)
    (pre : List AppModule) (m : AppModule) (rest : List AppModule)
    (hfresh : ∀ p ∈ pre, lookupModule a.modules p.name = none)
    (hdistinct : pre.Pairwise (fun p q => p.name ≠ q.name))
    (hdup : (lookupModule a.modules m.name).isSome = true
        ∨ m.name ∈ pre.map AppModule.name) :
    a.registerModules (pre ++ m :: rest)
      = ({ a with modules := a.modules
            ++ pre.map (fun p => (p.name, ⟨p⟩)) },
         some ⟨duplicateModuleMsg m.name⟩) := by
  induction pre generalizing a with
  | nil =>
    have hdup2 : (lookupModule a.modules m.name).isSome = true := by
      rcases hdup with h | h
      · exact h
      · simp at h
    rw [List.nil_append, AppCreator.registerModules, if_pos hdup2]
    simp
  | cons p pre2 ih =>
    have hpfresh : lookupModule a.modules p.name = none :=
      hfresh p (List.mem_cons_self p pre2)
    have hpx : ¬ (lookupModule a.modules p.name).isSome = true := by
      simp [hpfresh]
    rw [List.cons_append, AppCreator.registerModules, if_neg hpx]
    refine Eq.trans (ih _ ?_ ?_ ?_) ?_
    · intro q hq
      have hqa := hfresh q (List.mem_cons_of_mem p hq)
      have hpq := (List.pairwise_cons.mp hdistinct).1 q hq
      show lookupModule (a.modules ++ [(p.name, ⟨p⟩)]) q.name = none
      rw [lookupModule_append_none _ hqa, lookupModule, if_neg hpq]
      rfl
    · exact (List.pairwise_cons.mp hdistinct).2
    · rcases hdup with h | h
      · obtain ⟨w, hw⟩ := Option.isSome_iff_exists.mp h
        left
        show (lookupModule (a.modules ++ [(p.name, ⟨p⟩)]) m.name).isSome = true
        rw [lookupModule_append_some _ hw]
        rfl
      · rw [List.map_cons] at h
        rcases List.mem_cons.mp h with heq | h2
        · left
          show (lookupModule (a.modules ++ [(p.name, ⟨p⟩)]) m.name).isSome = true
          rw [heq, lookupModule_append_none _ hpfresh, lookupModule, if_pos rfl]
          rfl
        · right
          exact h2
    · show ({ a with modules := (a.modules ++ [(p.name, (⟨p⟩ : AppModuleWiringWrapper))])
            ++ pre2.map (fun (q : AppModule) =>
                (q.name, (⟨q⟩ : AppModuleWiringWrapper))) },
          some (⟨duplicateModuleMsg m.name⟩ : GoError)) = _
      rw [List.append_assoc]
      rfl

/-- Witness for C10: `auth` is inserted, the duplicate `auth` then fails
the call, `bank` is never reached, and `auth` stays registered. -/
theorem registerModules_partial_insertion_concrete :
    sampleCreator0.registerModules [authModule, ⟨"auth"⟩, bankModule]
      = ({ sampleCreator0 with modules := [("auth", ⟨authModule⟩)] },
         some ⟨duplicateModuleMsg "auth"⟩) :=
  registerModules_partial_insertion sampleCreator0 [authModule] ⟨"auth"⟩
    [bankModule] (by decide) (by decide) (Or.inr (by decide))

/-- C9: when the pruning-option parse, the snapshot metadata database open,
or the snapshot store open fails, `Create` aborts with that failure: no
engine handle is returned and the creator — its retained engine handle
included — is unchanged, so no partially-initialized application exists. -/
theorem create_aborts_on_external_failure (a : AppCreator) (logger : Logger)
    (db : DB) (traceStore : Option TraceWriter) (env : CreateEnv)
    (baseAppOptions : List (BaseApp → BaseApp))
    (h : (∃ e, env.pruningOptsResult = .error e)
        ∨ (∃ e, env.snapshotDBResult = .error e)
        ∨ (∃ e, env.snapshotStoreResult = .error e)) :
    ∃ e, a.create logger db traceStore env baseAppOptions = (a, .error e) := by
  cases hp : env.pruningOptsResult with
  | error e =>
    refine ⟨e, ?_⟩
    unfold AppCreator.create
    rw [hp]
  | ok popts =>
    cases hd : env.snapshotDBResult with
    | error e =>
      refine ⟨e, ?_⟩
      unfold AppCreator.create
      rw [hp, hd]
    | ok sdb =>
      cases hs : env.snapshotStoreResult with
      | error e =>
        refine ⟨e, ?_⟩
        unfold AppCreator.create
        rw [hp, hd, hs]
      | ok store =>
        rcases h with ⟨e, he⟩ | ⟨e, he⟩ | ⟨e, he⟩
        · rw [he] at hp
          simp at hp
        · rw [he] at hd
          simp at hd
        · rw [he] at hs
          simp at hs

/-- Witness for C9: a failing pruning-option parse aborts `Create`. -/
theorem create_aborts_on_external_failure_concrete :
    ∃ e, sampleCreator0.create sampleLogger sampleDB none badPruningEnv []
      = (sampleCreator0, .error e) :=
  create_aborts_on_external_failure sampleCreator0 sampleLogger sampleDB none
    badPruningEnv [] (Or.inl ⟨⟨"invalid pruning option"⟩, rfl⟩)

/-- C5 counterexample: on a concrete creator whose engine is already
constructed, a second `Create` call succeeds and replaces the retained
engine handle with a different one instead of being rejected. -/
theorem create_second_call_replaces :
    createdCreator.app.isSome = true ∧
    ((createdCreator.create sampleLogger sampleDB none okEnvHalt []).2).isOk
        = true ∧
    (createdCreator.create sampleLogger sampleDB none okEnvHalt []).1.app
        ≠ createdCreator.app := by
  refine ⟨rfl, rfl, ?_⟩
  decide

/-- C5 (amended): the first `Create` call constructs the engine and
installs the previously-absent handle, but the code does not make `Create`
once-only: whenever the external steps succeed, `Create` succeeds and
unconditionally overwrites the creator's engine handle with the newly
constructed engine. -/
theorem create_sets_handle (a : AppCreator) (logger : Logger) (db : DB)
    (traceStore : Option TraceWriter) (env : CreateEnv)
    (baseAppOptions : List (BaseApp → BaseApp))
    (h1 : ∃ v, env.pruningOptsResult = .ok v)
    (h2 : ∃ v, env.snapshotDBResult = .ok v)
    (h3 : ∃ v, env.snapshotStoreResult = .ok v) :
    ∃ app, a.create logger db traceStore env baseAppOptions
      = ({ a with app := some app }, .ok app) := by
  obtain ⟨popts, hp⟩ := h1
  obtain ⟨sdb, hd⟩ := h2
  obtain ⟨store, hs⟩ := h3
  unfold AppCreator.create
  rw [hp, hd, hs]
  exact ⟨_, rfl⟩

/-- Witness for the amended C5 at a fresh creator and all-success
environment. -/
theorem create_sets_handle_concrete :
    ∃ app, sampleCreator0.create sampleLogger sampleDB none okEnv []
      = ({ sampleCreator0 with app := some app }, .ok app) :=
  create_sets_handle sampleCreator0 sampleLogger sampleDB none okEnv []
    ⟨_, rfl⟩ ⟨_, rfl⟩ ⟨_, rfl⟩

end CosmosRuntime
